import Mathlib

/-!
Verification development for the AirlineScheduler repository.

The demand-estimation engine of the repository is embedded shallowly:

* `code/demand_functions.py` — the canonical factor model, composite scorer
  and class multipliers (module-level constants and functions);
* `code/helpers.py` — degree/radian conversion and the haversine
  great-circle distance;
* `code/routes.py` — route construction and the per-class demand
  orchestration with truncation to integer passenger counts;
* `code/airport.py` — airport coordinate resolution (modelled through an
  explicit resolver map, the repository reads it from a local database file).

Python floats are modelled as real numbers.  An arithmetic step of the
source that does not produce a real number at runtime — a float division
by zero (`ZeroDivisionError` for plain floats, `inf`/`nan` for numpy
scalars), or a numpy `sqrt`/`log` of a negative argument (`nan`) — is
modelled by an absent result (`Option.none`); the guards in the
`Option`-valued definitions below mark exactly the places where the source
performs such a step, they are not clamps present in the source.
-/

namespace AirlineScheduler

open Real

/-- Weight constant `WEIGHT_EF` of `demand_functions.py`. -/
noncomputable def WEIGHT_EF : ℝ := 0.4

/-- Weight constant `WEIGHT_PF` of `demand_functions.py`. -/
noncomputable def WEIGHT_PF : ℝ := 0.3

/-- Weight constant `WEIGHT_TF` of `demand_functions.py`. -/
noncomputable def WEIGHT_TF : ℝ := 0.2

/-- Weight constant `WEIGHT_DF = 1 - (WEIGHT_PF + WEIGHT_EF + WEIGHT_TF)` of
`demand_functions.py`. -/
noncomputable def WEIGHT_DF : ℝ := 1 - (WEIGHT_PF + WEIGHT_EF + WEIGHT_TF)

/-- Season multiplier constant of `demand_functions.py`. -/
noncomputable def PEAK_SEASON_MULTIPLIER : ℝ := 1.5

/-- Season multiplier constant of `demand_functions.py`. -/
noncomputable def STD_SEASON_MULTIPLIER : ℝ := 1.0

/-- Season multiplier constant of `demand_functions.py`. -/
noncomputable def OFF_PEAK_SEASON_MULTIPLIER : ℝ := 0.5

/-- Scaling constant `DEMAND_SCALING_FACTOR = 10_000` of
`demand_functions.py` (declared as a Python int, used in float
arithmetic). -/
noncomputable def DEMAND_SCALING_FACTOR : ℝ := 10000

/-- `__compute_population_factor(populations, product_of_populations)` of
`demand_functions.py`: `sqrt(product_of_populations) / max(populations)`.
The source performs the numpy square root and the division with no guard;
when `product_of_populations < 0` the square root is `nan`, and when
`max(populations) = 0` the division by zero yields `nan`/`inf` — both
modelled as an absent result. -/
noncomputable def compute_population_factor
    (populations : ℤ × ℤ) (product_of_populations : ℤ) : Option ℝ :=
  if product_of_populations < 0 then none
  else if max populations.1 populations.2 = 0 then none
  else some (Real.sqrt (product_of_populations : ℝ) /
      ((max populations.1 populations.2 : ℤ) : ℝ))

/-- `__compute_economic_factor(gdps, plis)` of `demand_functions.py`:
adjusted GDPs per capita `gdps[i]/plis[i]`, their ratio `esr`, then
`1 / (1 + exp(-log(esr + 1e-5)))`.  The source divides plain Python floats
(raising `ZeroDivisionError` on a zero divisor, modelled as `none`) and
takes the numpy log (which yields `nan` on a negative argument, modelled
as `none`, and `-inf` on zero, which propagates to the float `0.0`). -/
noncomputable def compute_economic_factor (gdps : ℝ × ℝ) (plis : ℝ × ℝ) :
    Option ℝ :=
  if plis.1 = 0 ∨ plis.2 = 0 then none
  else
    let adjusted_gdppc_origin := gdps.1 / plis.1
    let adjusted_gdppc_dest := gdps.2 / plis.2
    if adjusted_gdppc_dest = 0 then none
    else
      let esr := adjusted_gdppc_origin / adjusted_gdppc_dest
      if esr + 1e-5 < 0 then none
      else if esr + 1e-5 = 0 then some 0
      else some (1 / (1 + Real.exp (-Real.log (esr + 1e-5))))

/-- `__compute_tourism_factor(tourism_expenditures, product_of_expenditures)`
of `demand_functions.py`:
`sqrt(product_of_expenditures) / max(tourism_expenditures)`, with the same
unguarded numpy square root and division as the population factor. -/
noncomputable def compute_tourism_factor
    (tourism_expenditures : ℝ × ℝ) (product_of_expenditures : ℝ) : Option ℝ :=
  if product_of_expenditures < 0 then none
  else if max tourism_expenditures.1 tourism_expenditures.2 = 0 then none
  else some (Real.sqrt product_of_expenditures /
      max tourism_expenditures.1 tourism_expenditures.2)

/-- Density of the log-normal distribution as computed by
`scipy.stats.lognorm.pdf(x, s, scale=scale)`:
`exp(-(log(x/scale))^2 / (2 s^2)) / (x s sqrt(2 pi))` for `x > 0`, and `0`
for `x ≤ 0`. -/
noncomputable def lognorm_pdf (x : ℝ) (s : ℝ) (scale : ℝ) : ℝ :=
  if 0 < x then
    Real.exp (-(Real.log (x / scale)) ^ 2 / (2 * s ^ 2)) /
      (x * s * Real.sqrt (2 * Real.pi))
  else 0

/-- `__compute_distance_factor(distance)` of `demand_functions.py`:
`min(lognorm.pdf(distance, 0.5, scale=1000) / lognorm.pdf(1000, 0.5, scale=1000), 1.0)`. -/
noncomputable def compute_distance_factor (distance : ℝ) : ℝ :=
  let scale : ℝ := 1000
  let sigma : ℝ := 0.5
  let pdf_value := lognorm_pdf distance sigma scale
  let max_pdf := lognorm_pdf scale sigma scale
  min (pdf_value / max_pdf) 1.0

/-- A calendar date as far as the demand engine reads it: `datetime.date`
exposes `year`, `month` and `day`; the source only ever reads `month`. -/
structure CalDate where
  year : ℤ
  month : ℕ
  day : ℕ

/-- `_get_seasonality_factor(curr_date)` of `demand_functions.py`: a match
on `curr_date.month` sending 6, 7, 8 and 12 to the peak multiplier, 1 and 2
to the off-peak multiplier, and every other month to the standard one. -/
noncomputable def get_seasonality_factor (curr_date : CalDate) : ℝ :=
  match curr_date.month with
  | 6 | 7 | 8 | 12 => PEAK_SEASON_MULTIPLIER
  | 1 | 2 => OFF_PEAK_SEASON_MULTIPLIER
  | _ => STD_SEASON_MULTIPLIER

/-- `__compute_composite_score(distance, **kwargs)` of
`demand_functions.py`: the weighted sum of the four factors, the population
and tourism factors applied to the first two components and the product
component (index 3) of their stat 4-tuples. -/
noncomputable def compute_composite_score (distance : ℝ)
    (populations : ℤ × ℤ × ℤ × ℤ) (gdps plis : ℝ × ℝ × ℝ × ℝ)
    (tourism_expenditures : ℝ × ℝ × ℝ × ℝ) : Option ℝ := do
  let pf ← compute_population_factor (populations.1, populations.2.1)
    populations.2.2.2
  let ef ← compute_economic_factor (gdps.1, gdps.2.1) (plis.1, plis.2.1)
  let tf ← compute_tourism_factor
    (tourism_expenditures.1, tourism_expenditures.2.1)
    tourism_expenditures.2.2.2
  pure (WEIGHT_PF * pf + WEIGHT_EF * ef + WEIGHT_TF * tf +
    WEIGHT_DF * compute_distance_factor distance)

/-- `_compute_base_demand(distance, **kwargs)` of `demand_functions.py`:
the composite score times `DEMAND_SCALING_FACTOR`. -/
noncomputable def compute_base_demand (distance : ℝ)
    (populations : ℤ × ℤ × ℤ × ℤ) (gdps plis : ℝ × ℝ × ℝ × ℝ)
    (tourism_expenditures : ℝ × ℝ × ℝ × ℝ) : Option ℝ :=
  (compute_composite_score distance populations gdps plis
    tourism_expenditures).map (· * DEMAND_SCALING_FACTOR)

/-- `_get_first_class_multiplier(gdps, plis)` of `demand_functions.py`:
the economic factor times `0.05`. -/
noncomputable def get_first_class_multiplier (gdps plis : ℝ × ℝ) : Option ℝ :=
  (compute_economic_factor gdps plis).map (· * 0.05)

/-- `_get_business_class_multiplier` of `demand_functions.py`: the economic
factor times `0.08` plus the tourism factor times `0.07`. -/
noncomputable def get_business_class_multiplier (gdps plis : ℝ × ℝ)
    (tourism_expenditures : ℝ × ℝ) (product_of_expenditures : ℝ) :
    Option ℝ := do
  let ef ← compute_economic_factor gdps plis
  let tf ← compute_tourism_factor tourism_expenditures product_of_expenditures
  pure (ef * 0.08 + tf * 0.07)

/-- `_get_economy_class_multiplier` of `demand_functions.py`: the sum of the
population and distance factors, times `0.8`. -/
noncomputable def get_economy_class_multiplier (populations : ℤ × ℤ)
    (product_of_populations : ℤ) (distance : ℝ) : Option ℝ :=
  (compute_population_factor populations product_of_populations).map
    (fun pf => (pf + compute_distance_factor distance) * 0.8)

/-- `degrees_to_radians(degrees)` of `helpers.py`: `degrees * pi / 180`. -/
noncomputable def degrees_to_radians (degrees : ℝ) : ℝ :=
  degrees * Real.pi / 180

/-- The inner `haversin(alpha)` of `gc_distance` in `helpers.py`:
`sin(alpha/2)**2`. -/
noncomputable def haversin (alpha : ℝ) : ℝ :=
  Real.sin (alpha / 2) ^ 2

/-- `gc_distance(airport_coords1, airport_coords2)` of `helpers.py`: the
haversine great-circle distance with Earth radius `6378.1` km, the
coordinates given as `(latitude, longitude)` pairs in radians. -/
noncomputable def gc_distance (airport_coords1 airport_coords2 : ℝ × ℝ) : ℝ :=
  2 * 6378.1 * Real.arcsin (Real.sqrt
    (haversin (airport_coords2.1 - airport_coords1.1) +
      Real.cos airport_coords1.1 * Real.cos airport_coords2.1 *
        haversin (airport_coords2.2 - airport_coords1.2)))

/-- An `Airport` of `airport.py`, restricted to the fields the route logic
reads: the ICAO code and the resolved coordinates, which
`get_latitude_and_longitude` returns as `(None, None)` when the code is
absent from the position database. -/
structure Airport where
  icao_code : String
  latitude : Option ℝ
  longitude : Option ℝ

/-- Construction of an `Airport` from `airport.py`: the coordinates come
from a position lookup (the repository loads it from
`GlobalAirportDatabase.txt`), absent codes giving `(None, None)`. -/
def mkAirport (positions : String → Option (ℝ × ℝ)) (icao_code : String) :
    Airport :=
  { icao_code := icao_code
    latitude := (positions icao_code).map Prod.fst
    longitude := (positions icao_code).map Prod.snd }

/-- A `Route` of `routes.py`: the two airports plus the distance memoized at
construction time. -/
structure Route where
  hub_airport : Airport
  dest_airport : Airport
  distance : ℝ

/-- `Route.__init__(hub_icao, dest_icao)` of `routes.py`: build both
airports, raise `ValueError` (`'No such airport with ICAO code ...'`) when
the destination latitude or longitude is `None`, then memoize the distance
`gc_distance` of the two coordinate pairs converted to radians.  A raised
exception is modelled as `Except.error`; when the destination check passes
but a hub coordinate is `None`, `degrees_to_radians(None)` raises a
`TypeError`, modelled as the second error case. -/
noncomputable def Route.init (positions : String → Option (ℝ × ℝ))
    (hub_icao dest_icao : String) : Except String Route :=
  let hub_airport := mkAirport positions hub_icao
  let dest_airport := mkAirport positions dest_icao
  match dest_airport.latitude, dest_airport.longitude with
  | none, _ => Except.error ("No such airport with ICAO code " ++ dest_icao)
  | _, none => Except.error ("No such airport with ICAO code " ++ dest_icao)
  | some dest_lat, some dest_lon =>
    match hub_airport.latitude, hub_airport.longitude with
    | some hub_lat, some hub_lon =>
      Except.ok
        { hub_airport := hub_airport
          dest_airport := dest_airport
          distance := gc_distance
            (degrees_to_radians hub_lat, degrees_to_radians hub_lon)
            (degrees_to_radians dest_lat, degrees_to_radians dest_lon) }
    | _, _ => Except.error "TypeError: unresolved hub coordinates"

/-- Python `int(x)` applied to a float: truncation toward zero. -/
noncomputable def int_trunc (x : ℝ) : ℤ :=
  if 0 ≤ x then ⌊x⌋ else ⌈x⌉

/-- The quantities `routes.py`'s `Route.get_approximate_pax_demand` reads
from its `PassengerDemand` collaborator: the base demand, the seasonality
factor and the three class multipliers, each a float. -/
structure PassengerDemandView where
  base_demand : ℝ
  seasonality_factor : ℝ
  first_class_multiplier : ℝ
  business_class_multiplier : ℝ
  economy_class_multiplier : ℝ

/-- `Route.get_approximate_pax_demand()` of `routes.py`: start from
`base_demand * seasonality_factor`, multiply by each class multiplier, and
return the triple of the three products each passed through `int(...)`. -/
noncomputable def get_approximate_pax_demand (pd : PassengerDemandView) :
    ℤ × ℤ × ℤ :=
  let fcd := pd.base_demand * pd.seasonality_factor
  (int_trunc (fcd * pd.first_class_multiplier),
    int_trunc (fcd * pd.business_class_multiplier),
    int_trunc (fcd * pd.economy_class_multiplier))

/-! ### Helper lemmas -/

lemma logistic_log_eq {y : ℝ} (hy : 0 < y) :
    1 / (1 + Real.exp (-Real.log y)) = y / (1 + y) := by
  rw [Real.exp_neg, Real.exp_log hy]
  rw [show (1 : ℝ) + y⁻¹ = (y + 1) / y by field_simp]
  rw [one_div_div]
  ring_nf

lemma ratio_form_nonneg {y : ℝ} (hy : 0 < y) : 0 ≤ y / (1 + y) := by
  positivity

lemma ratio_form_lt_one {y : ℝ} (hy : 0 < y) : y / (1 + y) < 1 := by
  rw [div_lt_one (by linarith)]
  linarith

lemma ratio_form_strictMono {a b : ℝ} (ha : 0 < a) (hab : a < b) :
    a / (1 + a) < b / (1 + b) := by
  rw [div_lt_div_iff₀ (by linarith) (by linarith)]
  nlinarith

lemma compute_economic_factor_of_pos {g1 g2 p1 p2 : ℝ} (hg1 : 0 < g1)
    (hg2 : 0 < g2) (hp1 : 0 < p1) (hp2 : 0 < p2) :
    compute_economic_factor (g1, g2) (p1, p2) =
      some (1 / (1 + Real.exp (-Real.log ((g1 / p1) / (g2 / p2) + 1e-5)))) := by
  have hr : 0 < (g1 / p1) / (g2 / p2) :=
    div_pos (div_pos hg1 hp1) (div_pos hg2 hp2)
  have heps : (0 : ℝ) < (g1 / p1) / (g2 / p2) + 1e-5 := by
    have h5 : (0 : ℝ) < 1e-5 := by norm_num
    linarith
  simp only [compute_economic_factor]
  rw [if_neg (by push_neg; exact ⟨hp1.ne', hp2.ne'⟩)]
  rw [if_neg (div_pos hg2 hp2).ne']
  rw [if_neg (not_lt.mpr heps.le), if_neg heps.ne']

lemma compute_economic_factor_rational {g1 g2 p1 p2 : ℝ} (hg1 : 0 < g1)
    (hg2 : 0 < g2) (hp1 : 0 < p1) (hp2 : 0 < p2) :
    compute_economic_factor (g1, g2) (p1, p2) =
      some (((g1 / p1) / (g2 / p2) + 1e-5) /
        (1 + ((g1 / p1) / (g2 / p2) + 1e-5))) := by
  have hr : 0 < (g1 / p1) / (g2 / p2) :=
    div_pos (div_pos hg1 hp1) (div_pos hg2 hp2)
  have heps : (0 : ℝ) < (g1 / p1) / (g2 / p2) + 1e-5 := by
    have h5 : (0 : ℝ) < 1e-5 := by norm_num
    linarith
  rw [compute_economic_factor_of_pos hg1 hg2 hp1 hp2,
    logistic_log_eq heps]

lemma lognorm_pdf_nonneg {x s : ℝ} (hs : 0 ≤ s) (scale : ℝ) :
    0 ≤ lognorm_pdf x s scale := by
  unfold lognorm_pdf
  split_ifs with hx
  · exact div_nonneg (Real.exp_nonneg _)
      (by positivity)
  · exact le_refl 0

lemma lognorm_pdf_pos {x s scale : ℝ} (hx : 0 < x) (hs : 0 < s) :
    0 < lognorm_pdf x s scale := by
  unfold lognorm_pdf
  rw [if_pos hx]
  have h2pi : (0 : ℝ) < 2 * Real.pi := by positivity
  have := Real.sqrt_pos.mpr h2pi
  positivity

lemma compute_distance_factor_nonneg (d : ℝ) :
    0 ≤ compute_distance_factor d := by
  unfold compute_distance_factor
  refine le_min (div_nonneg ?_ ?_) (by norm_num)
  · exact lognorm_pdf_nonneg (by norm_num) _
  · exact lognorm_pdf_nonneg (by norm_num) _

lemma compute_distance_factor_le_one (d : ℝ) :
    compute_distance_factor d ≤ 1 := by
  unfold compute_distance_factor
  dsimp only
  exact le_trans (min_le_right _ _) (by norm_num)

lemma compute_distance_factor_at_peak : compute_distance_factor 1000 = 1 := by
  unfold compute_distance_factor
  have hpos : 0 < lognorm_pdf 1000 0.5 1000 :=
    lognorm_pdf_pos (by norm_num) (by norm_num)
  dsimp only
  rw [div_self hpos.ne']
  norm_num

lemma haversin_nonneg (alpha : ℝ) : 0 ≤ haversin alpha :=
  sq_nonneg _

lemma haversin_zero : haversin 0 = 0 := by
  simp [haversin]

lemma haversin_neg (alpha : ℝ) : haversin (-alpha) = haversin alpha := by
  unfold haversin
  rw [neg_div, Real.sin_neg]
  ring

lemma haversin_eq_half_sub (alpha : ℝ) :
    haversin alpha = 1 / 2 - Real.cos alpha / 2 := by
  have h := Real.sin_sq_eq_half_sub (alpha / 2)
  rwa [show 2 * (alpha / 2) = alpha by ring] at h

lemma gc_distance_nonneg (c1 c2 : ℝ × ℝ) : 0 ≤ gc_distance c1 c2 := by
  unfold gc_distance
  exact mul_nonneg (by norm_num)
    (Real.arcsin_nonneg.mpr (Real.sqrt_nonneg _))

lemma gc_distance_self (c : ℝ × ℝ) : gc_distance c c = 0 := by
  unfold gc_distance
  simp [haversin_zero]

lemma gc_distance_comm (c1 c2 : ℝ × ℝ) :
    gc_distance c1 c2 = gc_distance c2 c1 := by
  unfold gc_distance
  rw [show c1.1 - c2.1 = -(c2.1 - c1.1) by ring, haversin_neg,
    show c1.2 - c2.2 = -(c2.2 - c1.2) by ring, haversin_neg,
    mul_comm (Real.cos c2.1) (Real.cos c1.1)]

lemma gc_distance_le_antipodal (c1 c2 : ℝ × ℝ) :
    gc_distance c1 c2 ≤ Real.pi * 6378.1 := by
  unfold gc_distance
  have h := Real.arcsin_le_pi_div_two (Real.sqrt
    (haversin (c2.1 - c1.1) +
      Real.cos c1.1 * Real.cos c2.1 * haversin (c2.2 - c1.2)))
  nlinarith [Real.pi_pos]

/-! ### Claim theorems -/

/-- C5: at the degenerate input where both populations (or both tourism
expenditures) are zero, the source divides by `max(...) = 0`; the claimed
clamp to `0` is absent, so no factor value in `[0, 1]` is produced — the
computation yields no real result at all. -/
theorem C5_zero_denominator_not_clamped :
    compute_population_factor (0, 0) 0 = none ∧
    compute_tourism_factor (0, 0) 0 = none := by
  constructor
  · simp [compute_population_factor]
  · simp [compute_tourism_factor]

/-- C6: the seasonality factor depends only on the calendar month, and over
all twelve months it equals 1.5 for months 6, 7, 8 and 12, equals 0.5 for
months 1 and 2, and equals 1.0 for every other month. -/
theorem C6_seasonality_factor_by_month :
    (∀ d d' : CalDate, d.month = d'.month →
      get_seasonality_factor d = get_seasonality_factor d') ∧
    (∀ d : CalDate, 1 ≤ d.month → d.month ≤ 12 →
      ((d.month = 6 ∨ d.month = 7 ∨ d.month = 8 ∨ d.month = 12) →
        get_seasonality_factor d = 1.5) ∧
      ((d.month = 1 ∨ d.month = 2) → get_seasonality_factor d = 0.5) ∧
      (¬(d.month = 6 ∨ d.month = 7 ∨ d.month = 8 ∨ d.month = 12) →
        ¬(d.month = 1 ∨ d.month = 2) → get_seasonality_factor d = 1.0)) := by
  constructor
  · intro d d' h
    unfold get_seasonality_factor
    rw [h]
  · rintro ⟨y, m, dd⟩ h1 h2
    simp only at h1 h2 ⊢
    interval_cases m <;>
      simp [get_seasonality_factor, PEAK_SEASON_MULTIPLIER,
        OFF_PEAK_SEASON_MULTIPLIER, STD_SEASON_MULTIPLIER]

/-- Witness for C6 at the concrete date 2023-06-01. -/
theorem C6_seasonality_witness :
    get_seasonality_factor { year := 2023, month := 6, day := 1 } = 1.5 :=
  (C6_seasonality_factor_by_month.2 { year := 2023, month := 6, day := 1 }
    (by norm_num) (by norm_num)).1 (Or.inl rfl)

/-- C7: for every positive distance the distance factor lies in `[0, 1]`, it
equals `1` at the reference distance 1000 km, and its value at 1000 km
dominates its values at 100 km and 10000 km. -/
theorem C7_distance_factor_bounds_and_peak :
    (∀ d : ℝ, 0 < d →
      0 ≤ compute_distance_factor d ∧ compute_distance_factor d ≤ 1) ∧
    compute_distance_factor 1000 = 1 ∧
    compute_distance_factor 100 ≤ compute_distance_factor 1000 ∧
    compute_distance_factor 10000 ≤ compute_distance_factor 1000 := by
  refine ⟨fun d _ => ⟨compute_distance_factor_nonneg d,
    compute_distance_factor_le_one d⟩, compute_distance_factor_at_peak,
    ?_, ?_⟩
  · rw [compute_distance_factor_at_peak]
    exact compute_distance_factor_le_one 100
  · rw [compute_distance_factor_at_peak]
    exact compute_distance_factor_le_one 10000

/-- Witness for C7 at the concrete distance 500 km. -/
theorem C7_distance_factor_witness :
    0 ≤ compute_distance_factor 500 ∧ compute_distance_factor 500 ≤ 1 :=
  C7_distance_factor_bounds_and_peak.1 500 (by norm_num)

/-- C3: the public per-route demand estimate is the 3-tuple of integers
obtained by truncating `base_demand * seasonality_factor * multiplier`
toward zero for each class; `int_trunc` truncates toward zero (its result
has absolute value within `(|x| - 1, |x|]` on the same side of zero), and a
raw value of 12.9 truncates to 12, not 13. -/
theorem C3_pax_demand_truncation :
    (∀ pd : PassengerDemandView, get_approximate_pax_demand pd =
      (int_trunc (pd.base_demand * pd.seasonality_factor *
        pd.first_class_multiplier),
       int_trunc (pd.base_demand * pd.seasonality_factor *
        pd.business_class_multiplier),
       int_trunc (pd.base_demand * pd.seasonality_factor *
        pd.economy_class_multiplier))) ∧
    (∀ x : ℝ, |((int_trunc x : ℤ) : ℝ)| ≤ |x| ∧
      |x| < |((int_trunc x : ℤ) : ℝ)| + 1) ∧
    int_trunc (12.9 : ℝ) = 12 ∧ int_trunc (12.9 : ℝ) ≠ 13 := by
  have h129 : int_trunc (12.9 : ℝ) = 12 := by
    rw [int_trunc, if_pos (by norm_num)]
    rw [Int.floor_eq_iff]
    norm_num
  refine ⟨fun pd => rfl, fun x => ?_, h129, by rw [h129]; decide⟩
  unfold int_trunc
  split_ifs with h
  · have hf : (0 : ℤ) ≤ ⌊x⌋ := Int.floor_nonneg.mpr h
    rw [abs_of_nonneg h, abs_of_nonneg (by exact_mod_cast hf)]
    exact ⟨Int.floor_le x, Int.lt_floor_add_one x⟩
  · push_neg at h
    have hc : ⌈x⌉ ≤ 0 := Int.ceil_le.mpr (by exact_mod_cast h.le)
    rw [abs_of_neg h, abs_of_nonpos (by exact_mod_cast hc)]
    constructor
    · simpa using Int.le_ceil x
    · have := Int.ceil_lt_add_one x
      linarith

/-- C4: for positive GDPs and PLIs the economic factor is the logistic of
the log of `esr + 1e-5`, where `esr` is the plain ratio of adjusted GDPs
per capita `(gdp_i/pli_i)/(gdp_j/pli_j)` — the constant is added to the
ratio itself, not to the denominator — and the result lies in `[0, 1]`. -/
theorem C4_economic_factor_formula :
    ∀ gdp_i gdp_j pli_i pli_j : ℝ,
      0 < gdp_i → 0 < gdp_j → 0 < pli_i → 0 < pli_j →
      compute_economic_factor (gdp_i, gdp_j) (pli_i, pli_j) =
        some (1 / (1 + Real.exp
          (-Real.log ((gdp_i / pli_i) / (gdp_j / pli_j) + 1e-5)))) ∧
      ∀ ef, compute_economic_factor (gdp_i, gdp_j) (pli_i, pli_j) = some ef →
        0 ≤ ef ∧ ef ≤ 1 := by
  intro gdp_i gdp_j pli_i pli_j hg1 hg2 hp1 hp2
  have heps : (0 : ℝ) < (gdp_i / pli_i) / (gdp_j / pli_j) + 1e-5 := by
    have hr : 0 < (gdp_i / pli_i) / (gdp_j / pli_j) :=
      div_pos (div_pos hg1 hp1) (div_pos hg2 hp2)
    have h5 : (0 : ℝ) < 1e-5 := by norm_num
    linarith
  refine ⟨compute_economic_factor_of_pos hg1 hg2 hp1 hp2, fun ef hef => ?_⟩
  rw [compute_economic_factor_rational hg1 hg2 hp1 hp2] at hef
  have hval := Option.some_injective ℝ hef
  rw [← hval]
  exact ⟨ratio_form_nonneg heps, (ratio_form_lt_one heps).le⟩

/-- Witness for C4 at GDPs and PLIs all equal to 1. -/
theorem C4_economic_factor_witness :
    compute_economic_factor ((1 : ℝ), 1) (1, 1) =
      some (1 / (1 + Real.exp
        (-Real.log ((1 / 1) / ((1 : ℝ) / 1) + 1e-5)))) :=
  (C4_economic_factor_formula 1 1 1 1 (by norm_num) (by norm_num)
    (by norm_num) (by norm_num)).1

/-- C10: for positive inputs the economic-factor expression
`1/(1+exp(-log(x + 1e-5)))` collapses to the rational form
`(x + 1e-5)/(1 + x + 1e-5)`; the factor is strictly between 0 and 1, it is
strictly increasing in the ratio of adjusted GDPs per capita, and for equal
adjusted GDPs per capita it equals `(1 + 1e-5)/(2 + 1e-5) > 1/2`. -/
theorem C10_economic_factor_rational_form :
    ∀ g1 g2 p1 p2 : ℝ, 0 < g1 → 0 < g2 → 0 < p1 → 0 < p2 →
      compute_economic_factor (g1, g2) (p1, p2) =
        some (((g1 / p1) / (g2 / p2) + 1e-5) /
          (1 + ((g1 / p1) / (g2 / p2) + 1e-5))) ∧
      (∀ ef, compute_economic_factor (g1, g2) (p1, p2) = some ef →
        0 < ef ∧ ef < 1) ∧
      (∀ r r' e e' : ℝ, 0 < r → r < r' →
        compute_economic_factor (r, 1) (1, 1) = some e →
        compute_economic_factor (r', 1) (1, 1) = some e' → e < e') ∧
      (g1 / p1 = g2 / p2 →
        compute_economic_factor (g1, g2) (p1, p2) =
          some ((1 + 1e-5) / (2 + 1e-5)) ∧
        (1 : ℝ) / 2 < (1 + 1e-5) / (2 + 1e-5)) := by
  intro g1 g2 p1 p2 hg1 hg2 hp1 hp2
  have h5 : (0 : ℝ) < 1e-5 := by norm_num
  have hr : 0 < (g1 / p1) / (g2 / p2) :=
    div_pos (div_pos hg1 hp1) (div_pos hg2 hp2)
  have heps : (0 : ℝ) < (g1 / p1) / (g2 / p2) + 1e-5 := by linarith
  refine ⟨compute_economic_factor_rational hg1 hg2 hp1 hp2,
    fun ef hef => ?_, fun r r' e e' hrpos hlt he he' => ?_, fun heq => ?_⟩
  · rw [compute_economic_factor_rational hg1 hg2 hp1 hp2] at hef
    have hval := Option.some_injective ℝ hef
    rw [← hval]
    constructor
    · exact div_pos heps (by linarith)
    · exact ratio_form_lt_one heps
  · rw [compute_economic_factor_rational hrpos one_pos one_pos one_pos] at he
    rw [compute_economic_factor_rational (hrpos.trans hlt) one_pos one_pos
      one_pos] at he'
    have hve := Option.some_injective ℝ he
    have hve' := Option.some_injective ℝ he'
    rw [← hve, ← hve']
    have hsimp : ∀ t : ℝ, (t / 1) / ((1 : ℝ) / 1) = t := by
      intro t; norm_num
    rw [hsimp r, hsimp r']
    exact ratio_form_strictMono (by linarith) (by linarith)
  · have hd2 : 0 < g2 / p2 := div_pos hg2 hp2
    have hone : (g1 / p1) / (g2 / p2) = 1 := by
      rw [heq]
      exact div_self hd2.ne'
    constructor
    · rw [compute_economic_factor_rational hg1 hg2 hp1 hp2, hone]
      norm_num
    · rw [div_lt_div_iff₀ (by norm_num) (by norm_num)]
      norm_num

/-- Witness for C10 at GDPs and PLIs all equal to 1. -/
theorem C10_economic_factor_witness :
    compute_economic_factor ((1 : ℝ), 1) (1, 1) =
      some (((1 / 1) / ((1 : ℝ) / 1) + 1e-5) /
        (1 + ((1 / 1) / ((1 : ℝ) / 1) + 1e-5))) :=
  (C10_economic_factor_rational_form 1 1 1 1 (by norm_num) (by norm_num)
    (by norm_num) (by norm_num)).1

/-- C2: whenever the underlying factors are defined and lie in `[0, 1]`,
the first-class multiplier equals `EF * 0.05` and lies in `[0, 0.05]`, the
business-class multiplier equals `EF * 0.08 + TF * 0.07` and lies in
`[0, 0.15]`, and the economy-class multiplier equals `(PF + DF) * 0.8` and
lies in `[0, 1.6]`. -/
theorem C2_class_multiplier_formulas_and_bounds :
    ∀ (gdps plis te : ℝ × ℝ) (prod_te : ℝ) (pops : ℤ × ℤ) (prod_pop : ℤ)
      (d ef tf pf : ℝ),
      compute_economic_factor gdps plis = some ef → 0 ≤ ef → ef ≤ 1 →
      compute_tourism_factor te prod_te = some tf → 0 ≤ tf → tf ≤ 1 →
      compute_population_factor pops prod_pop = some pf → 0 ≤ pf → pf ≤ 1 →
      (get_first_class_multiplier gdps plis = some (ef * 0.05) ∧
        0 ≤ ef * 0.05 ∧ ef * 0.05 ≤ 0.05) ∧
      (get_business_class_multiplier gdps plis te prod_te =
          some (ef * 0.08 + tf * 0.07) ∧
        0 ≤ ef * 0.08 + tf * 0.07 ∧ ef * 0.08 + tf * 0.07 ≤ 0.15) ∧
      (get_economy_class_multiplier pops prod_pop d =
          some ((pf + compute_distance_factor d) * 0.8) ∧
        0 ≤ (pf + compute_distance_factor d) * 0.8 ∧
        (pf + compute_distance_factor d) * 0.8 ≤ 1.6) := by
  intro gdps plis te prod_te pops prod_pop d ef tf pf
  intro hef hef0 hef1 htf htf0 htf1 hpf hpf0 hpf1
  have hdf0 := compute_distance_factor_nonneg d
  have hdf1 := compute_distance_factor_le_one d
  refine ⟨⟨?_, by nlinarith, by nlinarith⟩,
    ⟨?_, by nlinarith, by nlinarith⟩,
    ⟨?_, by nlinarith, by nlinarith⟩⟩
  · simp [get_first_class_multiplier, hef]
  · simp [get_business_class_multiplier, hef, htf]
  · simp [get_economy_class_multiplier, hpf]

/-- Witness for C2 with all stats equal to 1 and distance 500 km. -/
theorem C2_class_multiplier_witness :
    get_first_class_multiplier ((1 : ℝ), 1) (1, 1) =
      some ((1 + 1e-5) / (1 + (1 + 1e-5)) * 0.05) :=
  ((C2_class_multiplier_formulas_and_bounds (1, 1) (1, 1) (1, 1) 1 (1, 1) 1
    500 ((1 + 1e-5) / (1 + (1 + 1e-5))) 1 1
    (by
      have h := @compute_economic_factor_rational 1 1 1 1
        one_pos one_pos one_pos one_pos
      rw [h]
      norm_num)
    (by positivity) (by
      rw [div_le_one (by norm_num)]
      norm_num)
    (by simp [compute_tourism_factor])
    (by norm_num) (by norm_num)
    (by simp [compute_population_factor])
    (by norm_num) (by norm_num)).1).1

/-- C1: the weights are `WEIGHT_EF = 0.4`, `WEIGHT_PF = 0.3`,
`WEIGHT_TF = 0.2`, `WEIGHT_DF = 0.1`, summing exactly to 1; whenever the
four factors are defined and lie in `[0, 1]`, the composite score equals
their weighted sum and lies in `[0, 1]`, and the base demand equals the
composite score times the scaling factor 10000 and lies in `[0, 10000]`. -/
theorem C1_composite_score_and_base_demand :
    ∀ (d : ℝ) (populations : ℤ × ℤ × ℤ × ℤ)
      (gdps plis te : ℝ × ℝ × ℝ × ℝ) (pf ef tf : ℝ),
      compute_population_factor (populations.1, populations.2.1)
        populations.2.2.2 = some pf → 0 ≤ pf → pf ≤ 1 →
      compute_economic_factor (gdps.1, gdps.2.1) (plis.1, plis.2.1) =
        some ef → 0 ≤ ef → ef ≤ 1 →
      compute_tourism_factor (te.1, te.2.1) te.2.2.2 = some tf →
        0 ≤ tf → tf ≤ 1 →
      (WEIGHT_EF = 0.4 ∧ WEIGHT_PF = 0.3 ∧ WEIGHT_TF = 0.2 ∧
        WEIGHT_DF = 0.1 ∧
        WEIGHT_PF + WEIGHT_EF + WEIGHT_TF + WEIGHT_DF = 1) ∧
      compute_composite_score d populations gdps plis te =
        some (WEIGHT_PF * pf + WEIGHT_EF * ef + WEIGHT_TF * tf +
          WEIGHT_DF * compute_distance_factor d) ∧
      (0 ≤ WEIGHT_PF * pf + WEIGHT_EF * ef + WEIGHT_TF * tf +
          WEIGHT_DF * compute_distance_factor d ∧
        WEIGHT_PF * pf + WEIGHT_EF * ef + WEIGHT_TF * tf +
          WEIGHT_DF * compute_distance_factor d ≤ 1) ∧
      compute_base_demand d populations gdps plis te =
        some ((WEIGHT_PF * pf + WEIGHT_EF * ef + WEIGHT_TF * tf +
          WEIGHT_DF * compute_distance_factor d) * DEMAND_SCALING_FACTOR) ∧
      (0 ≤ (WEIGHT_PF * pf + WEIGHT_EF * ef + WEIGHT_TF * tf +
          WEIGHT_DF * compute_distance_factor d) * DEMAND_SCALING_FACTOR ∧
        (WEIGHT_PF * pf + WEIGHT_EF * ef + WEIGHT_TF * tf +
          WEIGHT_DF * compute_distance_factor d) * DEMAND_SCALING_FACTOR ≤
          10000) := by
  intro d populations gdps plis te pf ef tf
  intro hpf hpf0 hpf1 hef hef0 hef1 htf htf0 htf1
  have hdf0 := compute_distance_factor_nonneg d
  have hdf1 := compute_distance_factor_le_one d
  have hw : WEIGHT_EF = 0.4 ∧ WEIGHT_PF = 0.3 ∧ WEIGHT_TF = 0.2 ∧
      WEIGHT_DF = 0.1 ∧
      WEIGHT_PF + WEIGHT_EF + WEIGHT_TF + WEIGHT_DF = 1 := by
    norm_num [WEIGHT_EF, WEIGHT_PF, WEIGHT_TF, WEIGHT_DF]
  have hcs : compute_composite_score d populations gdps plis te =
      some (WEIGHT_PF * pf + WEIGHT_EF * ef + WEIGHT_TF * tf +
        WEIGHT_DF * compute_distance_factor d) := by
    simp [compute_composite_score, hpf, hef, htf]
  obtain ⟨hwef, hwpf, hwtf, hwdf, -⟩ := hw
  have hbounds : 0 ≤ WEIGHT_PF * pf + WEIGHT_EF * ef + WEIGHT_TF * tf +
      WEIGHT_DF * compute_distance_factor d ∧
      WEIGHT_PF * pf + WEIGHT_EF * ef + WEIGHT_TF * tf +
      WEIGHT_DF * compute_distance_factor d ≤ 1 := by
    rw [hwef, hwpf, hwtf, hwdf]
    constructor <;> nlinarith
  refine ⟨⟨hwef, hwpf, hwtf, hwdf, by rw [hwef, hwpf, hwtf, hwdf]; norm_num⟩,
    hcs, hbounds, ?_, ?_, ?_⟩
  · rw [compute_base_demand, hcs]
    rfl
  · have := hbounds.1
    rw [DEMAND_SCALING_FACTOR]
    nlinarith
  · have := hbounds.2
    rw [DEMAND_SCALING_FACTOR]
    nlinarith

/-- Witness for C1 with all stats equal to 1 and distance 500 km. -/
theorem C1_composite_score_witness :
    compute_composite_score 500 (1, 1, 2, 1) (1, 1, 2, 1) (1, 1, 2, 1)
      (1, 1, 2, 1) =
      some (WEIGHT_PF * 1 + WEIGHT_EF * ((1 + 1e-5) / (1 + (1 + 1e-5))) +
        WEIGHT_TF * 1 + WEIGHT_DF * compute_distance_factor 500) :=
  (C1_composite_score_and_base_demand 500 (1, 1, 2, 1) (1, 1, 2, 1)
    (1, 1, 2, 1) (1, 1, 2, 1) 1 ((1 + 1e-5) / (1 + (1 + 1e-5))) 1
    (by simp [compute_population_factor])
    (by norm_num) (by norm_num)
    (by
      have h := @compute_economic_factor_rational 1 1 1 1
        one_pos one_pos one_pos one_pos
      rw [h]
      norm_num)
    (by positivity) (by
      rw [div_le_one (by norm_num)]
      norm_num)
    (by simp [compute_tourism_factor])
    (by norm_num) (by norm_num)).2.1

/-- C8: for coordinates with latitude in `[-90, 90]` and longitude in
`[-180, 180]` (degrees, converted to radians as the route code does), the
great-circle distance is symmetric, zero on a coincident pair, nonnegative
and at most `pi * 6378.1` km; moreover the operand handed to
`arcsin` under the square root stays in `[0, 1]`, so the formula never
leaves the domain of its library functions. -/
theorem C8_gc_distance_contract :
    ∀ lat1 lon1 lat2 lon2 : ℝ,
      -90 ≤ lat1 → lat1 ≤ 90 → -180 ≤ lon1 → lon1 ≤ 180 →
      -90 ≤ lat2 → lat2 ≤ 90 → -180 ≤ lon2 → lon2 ≤ 180 →
      gc_distance (degrees_to_radians lat1, degrees_to_radians lon1)
          (degrees_to_radians lat2, degrees_to_radians lon2) =
        gc_distance (degrees_to_radians lat2, degrees_to_radians lon2)
          (degrees_to_radians lat1, degrees_to_radians lon1) ∧
      gc_distance (degrees_to_radians lat1, degrees_to_radians lon1)
          (degrees_to_radians lat1, degrees_to_radians lon1) = 0 ∧
      0 ≤ gc_distance (degrees_to_radians lat1, degrees_to_radians lon1)
          (degrees_to_radians lat2, degrees_to_radians lon2) ∧
      gc_distance (degrees_to_radians lat1, degrees_to_radians lon1)
          (degrees_to_radians lat2, degrees_to_radians lon2) ≤
        Real.pi * 6378.1 ∧
      0 ≤ haversin (degrees_to_radians lat2 - degrees_to_radians lat1) +
        Real.cos (degrees_to_radians lat1) *
          Real.cos (degrees_to_radians lat2) *
          haversin (degrees_to_radians lon2 - degrees_to_radians lon1) ∧
      haversin (degrees_to_radians lat2 - degrees_to_radians lat1) +
        Real.cos (degrees_to_radians lat1) *
          Real.cos (degrees_to_radians lat2) *
          haversin (degrees_to_radians lon2 - degrees_to_radians lon1) ≤
        1 := by
  intro lat1 lon1 lat2 lon2 hlat1a hlat1b hlon1a hlon1b hlat2a hlat2b
    hlon2a hlon2b
  have hbound : ∀ t : ℝ, -90 ≤ t → t ≤ 90 →
      -(Real.pi / 2) ≤ degrees_to_radians t ∧
      degrees_to_radians t ≤ Real.pi / 2 := by
    intro t h1 h2
    unfold degrees_to_radians
    constructor
    · nlinarith [mul_nonneg (by linarith : (0 : ℝ) ≤ t + 90) Real.pi_pos.le]
    · nlinarith [mul_nonneg (by linarith : (0 : ℝ) ≤ 90 - t) Real.pi_pos.le]
  have hca : 0 ≤ Real.cos (degrees_to_radians lat1) :=
    Real.cos_nonneg_of_mem_Icc
      ⟨(hbound lat1 hlat1a hlat1b).1, (hbound lat1 hlat1a hlat1b).2⟩
  have hcb : 0 ≤ Real.cos (degrees_to_radians lat2) :=
    Real.cos_nonneg_of_mem_Icc
      ⟨(hbound lat2 hlat2a hlat2b).1, (hbound lat2 hlat2a hlat2b).2⟩
  set a := degrees_to_radians lat1
  set b := degrees_to_radians lat2
  set l := degrees_to_radians lon1
  set m := degrees_to_radians lon2
  refine ⟨gc_distance_comm _ _, gc_distance_self _, gc_distance_nonneg _ _,
    gc_distance_le_antipodal _ _, ?_, ?_⟩
  · exact add_nonneg (haversin_nonneg _)
      (mul_nonneg (mul_nonneg hca hcb) (haversin_nonneg _))
  · have hprod : 0 ≤ Real.cos a * Real.cos b := mul_nonneg hca hcb
    have hkey1 : -(Real.cos a * Real.cos b) ≤
        Real.cos a * Real.cos b * Real.cos (m - l) := by
      nlinarith [Real.neg_one_le_cos (m - l)]
    have h2 : Real.cos a * Real.cos b - Real.sin a * Real.sin b ≤ 1 := by
      have := Real.cos_le_one (a + b)
      rwa [Real.cos_add] at this
    have hfinal : -1 ≤ Real.cos a * Real.cos b * Real.cos (m - l) +
        Real.sin a * Real.sin b := by linarith
    rw [haversin_eq_half_sub, haversin_eq_half_sub, Real.cos_sub]
    nlinarith [hfinal]

/-- Witness for C8 at Geneva-like coordinates paired with themselves. -/
theorem C8_gc_distance_witness :
    gc_distance (degrees_to_radians 46, degrees_to_radians 6)
      (degrees_to_radians 46, degrees_to_radians 6) = 0 :=
  (C8_gc_distance_contract 46 6 46 6 (by norm_num) (by norm_num)
    (by norm_num) (by norm_num) (by norm_num) (by norm_num) (by norm_num)
    (by norm_num)).2.1

/-- C9 (counterexample to the distance positivity part of the claim): with
a resolver that knows the coordinates `(10, 20)` for every code, a route
from `"LSGG"` to itself constructs successfully, yet its memoized distance
is `0`, not positive. -/
theorem C9_route_distance_not_positive :
    ¬ (∀ r : Route,
        Route.init (fun _ => some ((10 : ℝ), (20 : ℝ))) "LSGG" "LSGG" =
          Except.ok r → 0 < r.distance) := by
  intro h
  have h0 := h
    { hub_airport := mkAirport (fun _ => some ((10 : ℝ), (20 : ℝ))) "LSGG"
      dest_airport := mkAirport (fun _ => some ((10 : ℝ), (20 : ℝ))) "LSGG"
      distance := gc_distance
        (degrees_to_radians 10, degrees_to_radians 20)
        (degrees_to_radians 10, degrees_to_radians 20) } rfl
  exact h0.ne' (gc_distance_self _)

/-- C9 (amended): construction fails with the `"No such airport"` error
whenever a destination coordinate is unresolved — atomically, since the
error case produces no route value at all — and when construction succeeds
the memoized distance is nonnegative (it is `0`, not positive, when the two
resolved coordinate pairs coincide). -/
theorem C9_route_construction_amended :
    ∀ (positions : String → Option (ℝ × ℝ)) (hub_icao dest_icao : String),
      (((mkAirport positions dest_icao).latitude = none ∨
          (mkAirport positions dest_icao).longitude = none) →
        Route.init positions hub_icao dest_icao =
          Except.error ("No such airport with ICAO code " ++ dest_icao)) ∧
      ∀ r : Route, Route.init positions hub_icao dest_icao = Except.ok r →
        0 ≤ r.distance := by
  intro positions hub_icao dest_icao
  constructor
  · intro h
    unfold Route.init
    rcases hd : positions dest_icao with _ | c
    · simp [mkAirport, hd]
    · exfalso
      rcases h with h | h <;> simp [mkAirport, hd] at h
  · intro r hr
    unfold Route.init at hr
    rcases hd : positions dest_icao with _ | c
    · simp [mkAirport, hd] at hr
    · rcases hh : positions hub_icao with _ | ch
      · simp [mkAirport, hd, hh] at hr
      · simp only [mkAirport, hd, hh, Option.map_some'] at hr
        cases hr
        exact gc_distance_nonneg _ _

/-- Witness for C9 (amended) with an empty resolver: the unresolved
destination yields exactly the `"No such airport"` error. -/
theorem C9_route_construction_witness :
    Route.init (fun _ => (none : Option (ℝ × ℝ))) "LSGG" "XXXX" =
      Except.error "No such airport with ICAO code XXXX" :=
  (C9_route_construction_amended (fun _ => none) "LSGG" "XXXX").1
    (Or.inl rfl)

end AirlineScheduler
